import Mathlib

/-!
Verification development for the supply-chain data integration system.

The development shallowly embeds the inventory simulator of
`src/data_extraction/api_connector.py` (`ExternalAPIHandler.simulate_inventory_activity`
and `_append_inventory_metrics`) and the metrics aggregation engine of
`src/data_processing/supply_chain_metrics.py` (`LogisticsAnalytics`).

Modelling conventions:
* Python's ambient `random` module is modelled as an injected `RandomSource`
  of sampling oracles indexed by the day index and the product position,
  one oracle per call site (`random.randint(1, 10)`, `random.uniform(...)`, ...).
  Range facts such as `randint(50, 100) ∈ [50, 100]` are hypotheses of the
  theorems that need them.
* `datetime` values are modelled by the day index `0, 1, ...` relative to the
  simulation start; two simulated dates are equal iff their day indices are.
* Machine floats are modelled by `ℚ`; `np.inf` (for `days_of_inventory`) is
  modelled by `⊤ : WithTop ℚ`, so that the elementwise comparison
  `days_of_inventory < 3` gets the IEEE behaviour `inf < 3 = false`.
* A pandas `DataFrame` built from a nonempty list of record dicts is the list
  of records; a `DataFrame` built from the empty list has no columns, so a
  column access on it raises `KeyError`.  `_append_inventory_metrics` therefore
  returns `Option`, and `none` models the `except`-branch result `None`.
* The threshold dictionaries `LEAD_TIME_THRESHOLDS` and `FILL_RATE_THRESHOLDS`
  come from a `config` module that is not part of the repository sources; the
  embedding keeps them as parameters of the metric functions.
-/

/-- A product row of the external catalog: `{id, title, category, price}`. -/
structure Product where
  id : ℕ
  title : String
  category : String
  price : ℚ
deriving DecidableEq, Repr

/-- One simulated inventory record, with exactly the keys of the dict built in
`simulate_inventory_activity` (`src/data_extraction/api_connector.py`). -/
structure InvRecord where
  date : ℕ
  product_id : ℕ
  product_name : String
  category : String
  daily_demand : ℤ
  stock_level : ℤ
  restock_amount : ℤ
  restocked : Bool
  price : ℚ
  original_price : ℚ
  price_change_pct : ℚ
deriving DecidableEq, Repr

/-- The injected random source: one sampling oracle per `random.*` call site of
`simulate_inventory_activity`, indexed by `(day, product position)`. -/
structure RandomSource where
  /-- `random.randint(1, 10)` drawn at the top of each `(day, item)` iteration. -/
  baseDemand : ℕ → ℕ → ℤ
  /-- `random.uniform(1 - DEMAND_VARIABILITY, 1 + DEMAND_VARIABILITY)`. -/
  noise : ℕ → ℕ → ℚ
  /-- `random.randint(50, 200)`, the initial/fallback stock draw. -/
  initStock : ℕ → ℕ → ℤ
  /-- `random.randint(50, 100)`, the restock quantity draw. -/
  restock : ℕ → ℕ → ℤ
  /-- `random.uniform(0.95, 1.05)`, the daily price factor. -/
  priceFactor : ℕ → ℕ → ℚ

/-- Python's `int(x)` on a float: truncation toward zero. -/
def pyInt (q : ℚ) : ℤ := if q < 0 then -⌊-q⌋ else ⌊q⌋

/-- The body of the inner `for _, item in product_df.iterrows()` loop of
`simulate_inventory_activity`: builds the record for product `item` (at
position `i` of the catalog) on day `day`, given the records `acc`
accumulated so far (used for the previous-day stock lookup). -/
def mk_record (g : RandomSource) (f : ℕ) (acc : List InvRecord) (day i : ℕ)
    (item : Product) : InvRecord :=
  let base_demand : ℤ := g.baseDemand day i
  let adjusted_demand : ℤ := max 0 (pyInt ((base_demand : ℚ) * g.noise day i))
  let stock_today : ℤ :=
    if day = 0 then g.initStock day i
    else
      match acc.find? (fun r => r.product_id == item.id && r.date == day - 1) with
      | some prev => prev.stock_level
      | none => g.initStock day i
  let restock_qty : ℤ := if day % f = 0 then g.restock day i else 0
  let was_restocked : Bool := decide (day % f = 0)
  let current_stock : ℤ := stock_today - adjusted_demand + restock_qty
  let price_variation : ℚ := item.price * g.priceFactor day i
  { date := day
    product_id := item.id
    product_name := item.title
    category := item.category
    daily_demand := adjusted_demand
    stock_level := max 0 current_stock
    restock_amount := restock_qty
    restocked := was_restocked
    price := price_variation
    original_price := item.price
    price_change_pct := (price_variation - item.price) / item.price * 100 }

/-- One day of the simulation: folds the inner product loop, appending each
new record to the accumulated list (as `inventory_records.append` does). -/
def simulate_day (g : RandomSource) (f day : ℕ) :
    List Product → ℕ → List InvRecord → List InvRecord
  | [], _, acc => acc
  | item :: rest, i, acc =>
      simulate_day g f day rest (i + 1) (acc ++ [mk_record g f acc day i item])

/-- The raw record list built by the `for day in range(simulation_days)` loop
of `simulate_inventory_activity`, before `_append_inventory_metrics`. -/
def simulate_raw (g : RandomSource) (products : List Product) (n f : ℕ) :
    List InvRecord :=
  (List.range n).foldl (fun acc day => simulate_day g f day products 0 acc) []

/-- An inventory record together with the four derived columns added by
`_append_inventory_metrics`. -/
structure EnrichedRecord where
  row : InvRecord
  days_of_inventory : WithTop ℚ
  stockout_risk : Bool
  annualized_turnover : ℚ
  fill_rate : ℚ

/-- The rowwise content of `_append_inventory_metrics`: the four `np.where`
formulas, evaluated on one record. -/
def enrich_record (r : InvRecord) : EnrichedRecord :=
  let days_of_inventory : WithTop ℚ :=
    if 0 < r.daily_demand then (((r.stock_level : ℚ) / (r.daily_demand : ℚ) : ℚ) : WithTop ℚ)
    else ⊤
  { row := r
    days_of_inventory := days_of_inventory
    stockout_risk := decide (days_of_inventory < (((3 : ℚ)) : WithTop ℚ))
    annualized_turnover :=
      if 0 < r.stock_level then ((r.daily_demand : ℚ) * 365) / (r.stock_level : ℚ) else 0
    fill_rate :=
      if 0 < r.daily_demand then min 1 ((r.stock_level : ℚ) / (r.daily_demand : ℚ)) else 1 }

/-- `_append_inventory_metrics` on the DataFrame built from `records`: on a
nonempty record list every column exists and the four derived columns are
added rowwise; on the empty list the frame has no columns, the first column
access raises `KeyError`, and the enclosing `except` yields `None`. -/
def append_inventory_metrics (records : List InvRecord) :
    Option (List EnrichedRecord) :=
  if records.isEmpty then none else some (records.map enrich_record)

/-- `simulate_inventory_activity`: the raw day-by-day simulation followed by
`_append_inventory_metrics`, with the `except`-branch `None` as `none`. -/
def simulate_inventory_activity (g : RandomSource) (products : List Product)
    (n f : ℕ) : Option (List EnrichedRecord) :=
  append_inventory_metrics (simulate_raw g products n f)

/-- The three labels of the `pd.cut` grading in `compute_lead_time_stats`. -/
inductive Grade where
  | excellent
  | good
  | poor
deriving DecidableEq, Repr

/-- One order row, with the columns `compute_lead_time_stats` and
`compute_cycle_time` read: `Lead Time (Days)`, `Order Date`, `Ship Date`. -/
structure OrderRow where
  leadTime : ℚ
  orderDate : ℤ
  shipDate : ℤ
deriving DecidableEq, Repr

/-- The `df_orders` frame.  `hasLeadTime` / `hasShipDate` model the presence
of the corresponding columns (`'Lead Time (Days)' not in df_orders.columns`
checks); the three `Option` fields model the columns these functions assign
onto the frame in place (`none` = column absent). -/
structure OrdersDF where
  rows : List OrderRow
  hasLeadTime : Bool
  hasShipDate : Bool
  gradeCol : Option (List (Option Grade))
  deliveryCol : Option (List ℤ)
  cycleCol : Option (List ℤ)
deriving DecidableEq, Repr

/-- The scalar results of `compute_lead_time_stats`.  The location statistics
`med/std/min/max_lead_time` are omitted from the model: no claim mentions
them and they are independent of the grading fields. -/
structure LeadStats where
  avg_lead_time : ℚ
  order_count : ℕ
  excellent_ratio : ℚ
  good_ratio : ℚ
  poor_ratio : ℚ
deriving DecidableEq, Repr

/-- The grade `pd.cut(lt, bins=[0, excT, goodT, inf], labels=[...])` assigns
to one lead-time value: half-open intervals `(0, excT]`, `(excT, goodT]`,
`(goodT, inf]` (pandas default `right=True`, `include_lowest=False`); a value
outside every bin (in particular `lt ≤ 0`) gets `NaN`, modelled as `none`. -/
def leadTimeGrade (excT goodT lt : ℚ) : Option Grade :=
  if 0 < lt ∧ lt ≤ excT then some Grade.excellent
  else if excT < lt ∧ lt ≤ goodT then some Grade.good
  else if goodT < lt then some Grade.poor
  else none

/-- `compute_lead_time_stats`.  Returns the stats (or `None`) together with
the frame as left behind by the call: the function assigns the new column
`df_orders['lead_time_grade'] = pd.cut(...)` onto its input frame.  The
bucket ratios come from `value_counts(normalize=True)`, which normalizes
over the non-`NaN` grades; `pd.cut` with non-increasing bins (`¬ 0 < excT <
goodT`) raises before the assignment, which the `except` turns into `None`. -/
def compute_lead_time_stats (excT goodT : ℚ) (df : OrdersDF) :
    Option LeadStats × OrdersDF :=
  if df.hasLeadTime = false then (none, df)
  else if 0 < excT ∧ excT < goodT then
    let lts := df.rows.map (fun r => r.leadTime)
    let grades := df.rows.map (fun r => leadTimeGrade excT goodT r.leadTime)
    let graded := grades.filterMap id
    (some
      { avg_lead_time := lts.sum / (lts.length : ℚ)
        order_count := df.rows.length
        excellent_ratio := (graded.count Grade.excellent : ℚ) / (graded.length : ℚ)
        good_ratio := (graded.count Grade.good : ℚ) / (graded.length : ℚ)
        poor_ratio := (graded.count Grade.poor : ℚ) / (graded.length : ℚ) },
     { df with gradeCol := some grades })
  else (none, df)

/-- The scalar results of `compute_cycle_time` (ship-date branch); the
`med/std` statistics are omitted as in `LeadStats`; `min?/max?` of an empty
column are `none` (pandas `NaN`). -/
structure CycleStats where
  avg_cycle_time : ℚ
  min_cycle_time : Option ℤ
  max_cycle_time : Option ℤ
deriving DecidableEq, Repr

/-- `compute_cycle_time`.  With a `Ship Date` column it synthesizes
`Delivery Date = Ship Date + delta(i)` (the `np.random.randint(2, 6)` draw for
row `i`, injected as the `delta` oracle) and `Cycle Time (Days)` columns onto
the input frame and reports their statistics; otherwise it falls back to
`compute_lead_time_stats`. -/
def compute_cycle_time (delta : ℕ → ℤ) (excT goodT : ℚ) (df : OrdersDF) :
    Option (CycleStats ⊕ LeadStats) × OrdersDF :=
  if df.hasShipDate = true then
    let deliveries := df.rows.enum.map (fun ir => ir.2.shipDate + delta ir.1)
    let cycles := df.rows.enum.map (fun ir => ir.2.shipDate + delta ir.1 - ir.2.orderDate)
    (some (Sum.inl
      { avg_cycle_time := ((cycles.sum : ℤ) : ℚ) / (cycles.length : ℚ)
        min_cycle_time := cycles.min?
        max_cycle_time := cycles.max? }),
     { df with deliveryCol := some deliveries, cycleCol := some cycles })
  else
    let r := compute_lead_time_stats excT goodT df
    (r.1.map Sum.inr, r.2)

/-- The scalar results of `compute_fill_rate_stats`; `med_fill_rate` is
omitted as in `LeadStats`. -/
structure FillStats where
  avg_fill_rate : ℚ
  excellent_rate_ratio : ℚ
  good_rate_ratio : ℚ
  poor_rate_ratio : ℚ
  product_total : ℕ
  at_risk_count : ℕ

/-- The per-product mean of the `fill_rate` column, i.e. one row of
`df_inventory.groupby('product_id').agg({'fill_rate': 'mean'})`. -/
def group_mean_fill (df : List EnrichedRecord) (k : ℕ) : ℚ :=
  let grouprows := df.filter (fun r => r.row.product_id == k)
  (grouprows.map (fun r => r.fill_rate)).sum / (grouprows.length : ℚ)

/-- `compute_fill_rate_stats` on the enriched inventory frame: group by
`product_id`, average `fill_rate` and sum `stockout_risk` per product, then
report the threshold ratios over products.  The grouped keys are modelled by
`dedup` of the id column; pandas sorts the group keys, but every reported
aggregate is invariant under the key order. -/
def compute_fill_rate_stats (excT goodT poorT : ℚ) (df : List EnrichedRecord) :
    FillStats :=
  let keys := (df.map (fun r => r.row.product_id)).dedup
  { avg_fill_rate := (keys.map (group_mean_fill df)).sum / (keys.length : ℚ)
    excellent_rate_ratio :=
      ((keys.countP (fun k => decide (excT ≤ group_mean_fill df k))) : ℚ) / (keys.length : ℚ)
    good_rate_ratio :=
      ((keys.countP (fun k => decide (goodT ≤ group_mean_fill df k))) : ℚ) / (keys.length : ℚ)
    poor_rate_ratio :=
      ((keys.countP (fun k => decide (group_mean_fill df k < poorT))) : ℚ) / (keys.length : ℚ)
    product_total := keys.length
    at_risk_count := df.countP (fun r => r.stockout_risk) }

/-- One return row; only its `category` column is read. -/
structure RetRow where
  category : String
deriving DecidableEq, Repr

/-- The `df_returns` frame: its rows plus the presence of the `category`
column (`'category' in df_returns.columns`). -/
structure ReturnsDF where
  rows : List RetRow
  hasCategory : Bool
deriving DecidableEq, Repr

/-- The result dict of `compute_return_metrics`; in the no-returns branch the
dict carries no `category_breakdown` key, modelled as `none`. -/
structure ReturnStats where
  order_total : ℕ
  return_total : ℕ
  return_ratio : ℚ
  return_percent : ℚ
  category_breakdown : Option (List (String × ℚ))
deriving DecidableEq, Repr

/-- `df_returns['category'].value_counts(normalize=True)` as an association
list (pandas orders it by descending count; the mapping content is what the
caller consumes). -/
def category_value_counts (cats : List String) : List (String × ℚ) :=
  cats.dedup.map (fun c => (c, (cats.count c : ℚ) / (cats.length : ℚ)))

/-- `compute_return_metrics`: with a present, nonempty returns frame the rate
is `len(returns) / len(orders)` guarded by `if order_total > 0 else 0`;
a `None` or empty returns frame yields the degenerate all-zero dict. -/
def compute_return_metrics (df_orders : OrdersDF) (df_returns : Option ReturnsDF) :
    ReturnStats :=
  match df_returns with
  | some rd =>
    if rd.rows.isEmpty then
      { order_total := df_orders.rows.length
        return_total := 0
        return_ratio := 0
        return_percent := 0
        category_breakdown := none }
    else
      let order_total := df_orders.rows.length
      let return_total := rd.rows.length
      let rate : ℚ := if 0 < order_total then (return_total : ℚ) / (order_total : ℚ) else 0
      { order_total := order_total
        return_total := return_total
        return_ratio := rate
        return_percent := rate * 100
        category_breakdown :=
          if rd.hasCategory then
            some (category_value_counts (rd.rows.map (fun r => r.category)))
          else none }
  | none =>
      { order_total := df_orders.rows.length
        return_total := 0
        return_ratio := 0
        return_percent := 0
        category_breakdown := none }

/-- A concrete all-constant random source used by the concrete evaluations. -/
def gConst : RandomSource :=
  { baseDemand := fun _ _ => 5
    noise := fun _ _ => 1
    initStock := fun _ _ => 100
    restock := fun _ _ => 60
    priceFactor := fun _ _ => 1 }

/-- Like `gConst`, but the day-1 base-demand draw yields `9` instead of `5`. -/
def gVar : RandomSource :=
  { gConst with baseDemand := fun d _ => if d = 1 then 9 else 5 }

/-- A concrete random source under which demand strips the stock to zero on
day 0: base-demand draw 200 against an initial stock of 50. -/
def gBig : RandomSource :=
  { baseDemand := fun _ _ => 200
    noise := fun _ _ => 1
    initStock := fun _ _ => 50
    restock := fun _ _ => 60
    priceFactor := fun _ _ => 1 }

/-- A concrete one-product catalog. -/
def catalog1 : List Product :=
  [{ id := 1, title := "A", category := "c", price := 10 }]

/-- A concrete order frame with a single order of lead time `0`. -/
def dfLt0 : OrdersDF :=
  { rows := [{ leadTime := 0, orderDate := 0, shipDate := 1 }]
    hasLeadTime := true
    hasShipDate := true
    gradeCol := none
    deliveryCol := none
    cycleCol := none }

/-- A concrete order frame with lead times `2`, `5`, `9`. -/
def dfThree : OrdersDF :=
  { rows :=
      [{ leadTime := 2, orderDate := 0, shipDate := 1 },
       { leadTime := 5, orderDate := 0, shipDate := 2 },
       { leadTime := 9, orderDate := 1, shipDate := 3 }]
    hasLeadTime := true
    hasShipDate := true
    gradeCol := none
    deliveryCol := none
    cycleCol := none }

/-- The single record of the run `simulate_raw gConst catalog1 1 7`:
day 0, demand `max 0 (int(5 * 1)) = 5`, stock `max 0 (100 - 5 + 60) = 155`
(day 0 satisfies `0 % 7 == 0`, so the restock branch fires). -/
def recConst0 : InvRecord :=
  { date := 0, product_id := 1, product_name := "A", category := "c",
    daily_demand := 5, stock_level := 155, restock_amount := 60, restocked := true,
    price := 10, original_price := 10, price_change_pct := 0 }

/-- A concrete record with zero demand and positive stock. -/
def recDemand0 : InvRecord :=
  { date := 3, product_id := 1, product_name := "A", category := "c",
    daily_demand := 0, stock_level := 5, restock_amount := 0, restocked := false,
    price := 10, original_price := 10, price_change_pct := 0 }

/-- A concrete record with zero stock and positive demand. -/
def recStock0 : InvRecord :=
  { date := 4, product_id := 1, product_name := "A", category := "c",
    daily_demand := 4, stock_level := 0, restock_amount := 0, restocked := false,
    price := 10, original_price := 10, price_change_pct := 0 }

/-- A concrete enriched inventory frame with two products, per-product mean
fill rates `1` and `1/2`. -/
def invTwo : List EnrichedRecord :=
  [{ row := { recDemand0 with product_id := 1 },
     days_of_inventory := ((2 : ℚ) : WithTop ℚ), stockout_risk := false,
     annualized_turnover := 10, fill_rate := 1 },
   { row := { recDemand0 with product_id := 2 },
     days_of_inventory := ((1 : ℚ) : WithTop ℚ), stockout_risk := true,
     annualized_turnover := 20, fill_rate := 1/2 }]

/-- A concrete returns frame with one return of category `books`. -/
def retOne : ReturnsDF :=
  { rows := [{ category := "books" }], hasCategory := true }

/-- The order frame as `compute_lead_time_stats` leaves it: the
`lead_time_grade` column assigned, everything else unchanged. -/
def with_grade_col (excT goodT : ℚ) (df : OrdersDF) : OrdersDF :=
  { df with gradeCol := some (df.rows.map (fun r => leadTimeGrade excT goodT r.leadTime)) }

/-- The order frame as the ship-date branch of `compute_cycle_time` leaves
it: the `Delivery Date` and `Cycle Time (Days)` columns assigned. -/
def with_cycle_cols (delta : ℕ → ℤ) (df : OrdersDF) : OrdersDF :=
  { df with
    deliveryCol := some (df.rows.enum.map (fun ir => ir.2.shipDate + delta ir.1))
    cycleCol := some (df.rows.enum.map (fun ir => ir.2.shipDate + delta ir.1 - ir.2.orderDate)) }

/-! ### Structural lemmas about the simulation loop -/

theorem simulate_day_append (g : RandomSource) (f day : ℕ) :
    ∀ (ps : List Product) (i : ℕ) (acc : List InvRecord),
      ∃ l, simulate_day g f day ps i acc = acc ++ l := by
  intro ps
  induction ps with
  | nil => intro i acc; exact ⟨[], (List.append_nil acc).symm⟩
  | cons p rest ih =>
    intro i acc
    obtain ⟨l, hl⟩ := ih (i + 1) (acc ++ [mk_record g f acc day i p])
    exact ⟨mk_record g f acc day i p :: l, by
      rw [simulate_day, hl, List.append_assoc]; rfl⟩

theorem simulate_day_length (g : RandomSource) (f day : ℕ) :
    ∀ (ps : List Product) (i : ℕ) (acc : List InvRecord),
      (simulate_day g f day ps i acc).length = acc.length + ps.length := by
  intro ps
  induction ps with
  | nil => intro i acc; simp [simulate_day]
  | cons p rest ih =>
    intro i acc
    rw [simulate_day, ih]
    simp
    omega

theorem simulate_raw_zero (g : RandomSource) (ps : List Product) (f : ℕ) :
    simulate_raw g ps 0 f = [] := rfl

theorem simulate_raw_succ (g : RandomSource) (ps : List Product) (n f : ℕ) :
    simulate_raw g ps (n + 1) f = simulate_day g f n ps 0 (simulate_raw g ps n f) := by
  unfold simulate_raw
  rw [List.range_succ, List.foldl_append]
  rfl

theorem simulate_raw_length (g : RandomSource) (ps : List Product) (f : ℕ) :
    ∀ n, (simulate_raw g ps n f).length = n * ps.length := by
  intro n
  induction n with
  | zero => simp [simulate_raw_zero]
  | succ m ih =>
    rw [simulate_raw_succ, simulate_day_length, ih, Nat.succ_mul]

theorem simulate_raw_nil_products (g : RandomSource) (n f : ℕ) :
    simulate_raw g [] n f = [] := by
  have h : ∀ (l : List ℕ) (acc : List InvRecord),
      l.foldl (fun acc day => simulate_day g f day [] 0 acc) acc = acc := by
    intro l
    induction l with
    | nil => intro acc; rfl
    | cons a rest ih => intro acc; exact ih acc
  exact h (List.range n) []

theorem mem_simulate_day (g : RandomSource) (f day : ℕ) :
    ∀ (ps : List Product) (i : ℕ) (acc : List InvRecord) (r : InvRecord),
      r ∈ simulate_day g f day ps i acc →
        r ∈ acc ∨ ∃ acc' j p, p ∈ ps ∧ r = mk_record g f acc' day j p := by
  intro ps
  induction ps with
  | nil => intro i acc r hr; exact Or.inl hr
  | cons p rest ih =>
    intro i acc r hr
    rw [simulate_day] at hr
    rcases ih (i + 1) (acc ++ [mk_record g f acc day i p]) r hr with hin | ⟨acc', j, q, hq, he⟩
    · rcases List.mem_append.mp hin with h1 | h2
      · exact Or.inl h1
      · exact Or.inr ⟨acc, i, p, List.mem_cons_self p rest, (List.mem_singleton.mp h2)⟩
    · exact Or.inr ⟨acc', j, q, List.mem_cons_of_mem p hq, he⟩

theorem mem_simulate_raw (g : RandomSource) (ps : List Product) (f : ℕ) :
    ∀ (n : ℕ) (r : InvRecord), r ∈ simulate_raw g ps n f →
      ∃ acc' day j p, day < n ∧ p ∈ ps ∧ r = mk_record g f acc' day j p := by
  intro n
  induction n with
  | zero => intro r hr; simp [simulate_raw_zero] at hr
  | succ m ih =>
    intro r hr
    rw [simulate_raw_succ] at hr
    rcases mem_simulate_day g f m ps 0 (simulate_raw g ps m f) r hr with hin | ⟨acc', j, p, hp, he⟩
    · obtain ⟨acc', day, j, p, hd, hp, he⟩ := ih r hin
      exact ⟨acc', day, j, p, Nat.lt_succ_of_lt hd, hp, he⟩
    · exact ⟨acc', m, j, p, Nat.lt_succ_self m, hp, he⟩

theorem simulate_day_demand (g : RandomSource) (f day : ℕ) :
    ∀ (ps : List Product) (i : ℕ) (acc : List InvRecord) (j : ℕ) (hj : j < ps.length),
      ((simulate_day g f day ps i acc)[acc.length + j]?).map
          (fun r => (r.date, r.product_id, r.daily_demand))
        = some (day, (ps.get ⟨j, hj⟩).id,
            max 0 (pyInt ((g.baseDemand day (i + j) : ℚ) * g.noise day (i + j)))) := by
  intro ps
  induction ps with
  | nil => intro i acc j hj; exact absurd hj (Nat.not_lt_zero j)
  | cons p rest ih =>
    intro i acc j hj
    rw [simulate_day]
    match j with
    | 0 =>
      obtain ⟨l, hl⟩ := simulate_day_append g f day rest (i + 1)
        (acc ++ [mk_record g f acc day i p])
      rw [hl, List.append_assoc]
      rw [List.getElem?_append_right (by simp)]
      simp only [Nat.add_zero, Nat.sub_self]
      simp [mk_record]
    | Nat.succ k =>
      have hk : k < rest.length := Nat.lt_of_succ_lt_succ hj
      have := ih (i + 1) (acc ++ [mk_record g f acc day i p]) k hk
      rw [List.length_append] at this
      simp only [List.length_singleton] at this
      have harith : acc.length + (k + 1) = acc.length + 1 + k := by omega
      rw [harith]
      rw [this]
      have : i + (k + 1) = i + 1 + k := by omega
      rw [this]
      rfl

theorem simulate_raw_demand (g : RandomSource) (ps : List Product) (f : ℕ) :
    ∀ (n d i : ℕ) (hd : d < n) (hi : i < ps.length),
      ((simulate_raw g ps n f)[d * ps.length + i]?).map
          (fun r => (r.date, r.product_id, r.daily_demand))
        = some (d, (ps.get ⟨i, hi⟩).id,
            max 0 (pyInt ((g.baseDemand d i : ℚ) * g.noise d i))) := by
  intro n
  induction n with
  | zero => intro d i hd hi; exact absurd hd (Nat.not_lt_zero d)
  | succ m ih =>
    intro d i hd hi
    rw [simulate_raw_succ]
    rcases Nat.lt_succ_iff_lt_or_eq.mp hd with hlt | heq
    · obtain ⟨l, hl⟩ := simulate_day_append g f m ps 0 (simulate_raw g ps m f)
      rw [hl]
      rw [List.getElem?_append_left (by
        rw [simulate_raw_length]
        have h1 : d * ps.length + i < (d + 1) * ps.length := by
          rw [Nat.succ_mul]; omega
        exact Nat.lt_of_lt_of_le h1 (Nat.mul_le_mul_right ps.length hlt))]
      exact ih d i hlt hi
    · subst heq
      have hlen : d * ps.length + i = (simulate_raw g ps d f).length + (0 + i) := by
        rw [simulate_raw_length]; omega
      rw [hlen]
      have := simulate_day_demand g f d ps 0 (simulate_raw g ps d f) i hi
      rw [Nat.zero_add] at this ⊢
      exact this

/-! ### Claims -/

/-- C6: every record produced by the simulator has `stock_level ≥ 0` and
`daily_demand ≥ 0`; both fields are written as `max(0, ·)` of the underlying
recurrence, so they are nonnegative whatever the random draws are. -/
theorem claim_C6 (g : RandomSource) (ps : List Product) (n f : ℕ) (hf : 0 < f) :
    ∀ r ∈ simulate_raw g ps n f, 0 ≤ r.daily_demand ∧ 0 ≤ r.stock_level := by
  intro r hr
  obtain ⟨acc', day, j, p, hd, hp, he⟩ := mem_simulate_raw g ps f n r hr
  subst he
  constructor <;> simp [mk_record]

/-- Witness for C6: the day-0 record of a concrete one-product, one-day run. -/
theorem claim_C6_witness :
    0 < 7 ∧ (0 ≤ recConst0.daily_demand ∧ 0 ≤ recConst0.stock_level) := by
  have hlist : simulate_raw gConst catalog1 1 7 = [recConst0] := by
    simp [simulate_raw, List.range, List.range.loop, simulate_day, mk_record,
      gConst, catalog1, pyInt, recConst0]
    norm_num
  exact ⟨by decide,
    claim_C6 gConst catalog1 1 7 (by decide) recConst0
      (hlist ▸ List.mem_cons_self recConst0 [])⟩

/-- C1 counterexample: in the concrete one-day run the day-0 record has
`restocked = true` and `restock_amount = 60 > 0`, because the code's guard is
`day % RESTOCKING_FREQUENCY == 0` with no `day > 0` condition and
`0 % 7 == 0`; the claim predicts `restocked = false` and
`restock_amount = 0` on every day-0 record. -/
theorem claim_C1_counterexample :
    (simulate_raw gConst catalog1 1 7).map (fun r => (r.date, r.restocked, r.restock_amount))
      = [(0, true, 60)] := by
  simp [simulate_raw, List.range, List.range.loop, simulate_day, mk_record,
    gConst, catalog1, pyInt]

/-- C1 (amended): provided the sampled restock quantities are positive (the
code draws `randint(50, 100)`), every simulated record satisfies
`restocked == true` iff `restock_amount > 0`, and `restock_amount > 0` holds
exactly on the days with `day % restocking_frequency == 0` — including day 0,
whose records therefore have `restocked = true` and `restock_amount > 0`. -/
theorem claim_C1_amended (g : RandomSource) (ps : List Product) (n f : ℕ)
    (hf : 0 < f) (hrq : ∀ d i, 0 < g.restock d i) :
    ∀ r ∈ simulate_raw g ps n f,
      (r.restocked = true ↔ 0 < r.restock_amount) ∧
      (0 < r.restock_amount ↔ r.date % f = 0) ∧
      (r.date = 0 → r.restocked = true ∧ 0 < r.restock_amount) := by
  intro r hr
  obtain ⟨acc', day, j, p, hd, hp, he⟩ := mem_simulate_raw g ps f n r hr
  subst he
  by_cases hmod : day % f = 0
  · simp [mk_record, hmod, hrq day j]
  · simp [mk_record, hmod]
    intro h0
    exact absurd (h0 ▸ Nat.zero_mod f) hmod

/-- Witness for C1 (amended), at the concrete day-0 record of a one-day run. -/
theorem claim_C1_amended_witness :
    0 < 7 ∧ (0:ℤ) < 60 ∧
    ((recConst0.restocked = true ↔ 0 < recConst0.restock_amount) ∧
     (0 < recConst0.restock_amount ↔ recConst0.date % 7 = 0) ∧
     (recConst0.date = 0 → recConst0.restocked = true ∧ 0 < recConst0.restock_amount)) := by
  have hlist : simulate_raw gConst catalog1 1 7 = [recConst0] := by
    simp [simulate_raw, List.range, List.range.loop, simulate_day, mk_record,
      gConst, catalog1, pyInt, recConst0]
    norm_num
  exact ⟨by decide, by decide,
    claim_C1_amended gConst catalog1 1 7 (by decide) (fun _ _ => by simp [gConst]) recConst0
      (hlist ▸ List.mem_cons_self recConst0 [])⟩

/-- C3 counterexample: on an empty product catalog `simulate_inventory_activity`
returns `None` (the `pd.DataFrame([])` built from zero records has no
`daily_demand` column, `_append_inventory_metrics` raises `KeyError`, and the
`except` branch returns `None`), not an empty record sequence. -/
theorem claim_C3_counterexample :
    simulate_inventory_activity gConst [] 30 7 = none ∧
    simulate_inventory_activity gConst [] 30 7 ≠ some [] := by
  constructor
  · rfl
  · intro h
    rw [show simulate_inventory_activity gConst [] 30 7 = none from rfl] at h
    exact Option.noConfusion h

/-- C3 (amended): for every random source, horizon and restocking frequency,
an empty product catalog makes `simulate_inventory_activity` return `None`
(its error sentinel) rather than an empty record sequence: the inner loops
produce no records and the metrics-append step fails on the missing
`daily_demand` column of the empty frame. -/
theorem claim_C3_amended (g : RandomSource) (n f : ℕ) :
    simulate_inventory_activity g [] n f = none := by
  unfold simulate_inventory_activity
  rw [simulate_raw_nil_products]
  rfl

/-- C2 counterexample: no trend step `tstep` and per-day seasonal factor can
explain the simulated demands, because the code draws a fresh `base_demand`
every day.  Formally: for a 2-day, one-product run there are no parameters
`tstep` (the accumulated `trend_factor^(1/simulation_days)` step) and
`seasonal` under which the day-1 demand equals
`max(0, floor(base_demand(day 0) * tstep * seasonal(1) * noise(1)))` for
every random source: the sources `gConst` and `gVar` agree on every draw the
formula reads (day-0 base demand and all noise) yet produce day-1 demands
`5` and `9`. -/
theorem claim_C2_counterexample :
    ¬ ∃ (tstep : ℚ) (seasonal : ℕ → ℚ), ∀ g : RandomSource,
      ((simulate_raw g catalog1 2 7)[1]?).map (fun r => r.daily_demand)
        = some (max 0 ⌊(g.baseDemand 0 0 : ℚ) * tstep * seasonal 1 * g.noise 1 0⌋) := by
  rintro ⟨t, s, H⟩
  have h1 := H gConst
  have h2 := H gVar
  have e1 : ((simulate_raw gConst catalog1 2 7)[1]?).map (fun r => r.daily_demand)
      = some 5 := by
    simp [simulate_raw, List.range, List.range.loop, simulate_day, mk_record,
      gConst, catalog1, pyInt]
    norm_num
  have e2 : ((simulate_raw gVar catalog1 2 7)[1]?).map (fun r => r.daily_demand)
      = some 9 := by
    simp [simulate_raw, List.range, List.range.loop, simulate_day, mk_record,
      gVar, gConst, catalog1, pyInt]
    norm_num
  rw [e1] at h1
  rw [e2] at h2
  simp only [gConst, gVar, Option.some.injEq] at h1 h2
  norm_num at h1 h2
  have : (5:ℤ) = 9 := by rw [h1, h2]
  exact absurd this (by decide)

/-- C2 (amended): for every product position `i` and day `d` of the horizon,
the record at position `d * |products| + i` of the simulated sequence is the
day-`d` record of product `i`, and its demand is
`max(0, int(base_demand * noise))` where `base_demand` is the fresh
`randint(1, 10)` draw of that very `(day, product)` iteration: the base
demand is resampled each day, and no seasonal factor or trend compounding is
applied. -/
theorem claim_C2_amended (g : RandomSource) (ps : List Product) (n f d i : ℕ)
    (hf : 0 < f) (hd : d < n) (hi : i < ps.length) :
    ((simulate_raw g ps n f)[d * ps.length + i]?).map
        (fun r => (r.date, r.product_id, r.daily_demand))
      = some (d, (ps.get ⟨i, hi⟩).id,
          max 0 (pyInt ((g.baseDemand d i : ℚ) * g.noise d i))) :=
  simulate_raw_demand g ps f n d i hd hi

/-- Witness for C2 (amended): day 1 of the 2-day run under `gVar`. -/
theorem claim_C2_amended_witness :
    0 < 7 ∧ 1 < 2 ∧ 0 < catalog1.length ∧
    ((simulate_raw gVar catalog1 2 7)[1 * catalog1.length + 0]?).map
        (fun r => (r.date, r.product_id, r.daily_demand))
      = some (1, (catalog1.get ⟨0, by decide⟩).id,
          max 0 (pyInt ((gVar.baseDemand 1 0 : ℚ) * gVar.noise 1 0))) :=
  ⟨by decide, by decide, by decide,
    claim_C2_amended gVar catalog1 2 7 1 0 (by decide) (by decide) (by decide)⟩

/-- C7: for a record with nonnegative stock (as every simulated record has),
zero demand yields the sentinel values `days_of_inventory = inf`,
`fill_rate = 1.0`, `stockout_risk = false`, and in all cases
`0 ≤ fill_rate ≤ 1`. -/
theorem claim_C7 (r : InvRecord) (hs : 0 ≤ r.stock_level) :
    (r.daily_demand = 0 →
      (enrich_record r).days_of_inventory = ⊤ ∧
      (enrich_record r).fill_rate = 1 ∧
      (enrich_record r).stockout_risk = false) ∧
    0 ≤ (enrich_record r).fill_rate ∧ (enrich_record r).fill_rate ≤ 1 := by
  constructor
  · intro hd
    simp [enrich_record, hd]
  · by_cases hd : 0 < r.daily_demand
    · have hsq : (0:ℚ) ≤ (r.stock_level : ℚ) := by exact_mod_cast hs
      have hdq : (0:ℚ) ≤ (r.daily_demand : ℚ) := by exact_mod_cast le_of_lt hd
      simp only [enrich_record, hd, if_true]
      exact ⟨le_min (by norm_num) (div_nonneg hsq hdq), min_le_left 1 _⟩
    · simp [enrich_record, hd]

/-- Witness for C7, at a concrete zero-demand record with stock 5. -/
theorem claim_C7_witness :
    0 ≤ recDemand0.stock_level ∧ recDemand0.daily_demand = 0 ∧
    ((enrich_record recDemand0).days_of_inventory = ⊤ ∧
     (enrich_record recDemand0).fill_rate = 1 ∧
     (enrich_record recDemand0).stockout_risk = false) ∧
    0 ≤ (enrich_record recDemand0).fill_rate ∧
    (enrich_record recDemand0).fill_rate ≤ 1 := by
  have h := claim_C7 recDemand0 (by decide)
  exact ⟨by decide, by decide, h.1 (by decide), h.2.1, h.2.2⟩

/-- C9: a record with zero stock and positive demand is enriched with
`days_of_inventory = 0`, `stockout_risk = true`, and (as the spec states for
this case) `annualized_turnover = 0` and `fill_rate = 0`. -/
theorem claim_C9 (r : InvRecord) (h0 : r.stock_level = 0) (hd : 0 < r.daily_demand) :
    (enrich_record r).days_of_inventory = ((0:ℚ) : WithTop ℚ) ∧
    (enrich_record r).stockout_risk = true ∧
    (enrich_record r).annualized_turnover = 0 ∧
    (enrich_record r).fill_rate = 0 := by
  simp [enrich_record, hd, h0]

/-- Witness for C9, at a concrete zero-stock record with demand 4. -/
theorem claim_C9_witness :
    recStock0.stock_level = 0 ∧ 0 < recStock0.daily_demand ∧
    ((enrich_record recStock0).days_of_inventory = ((0:ℚ) : WithTop ℚ) ∧
     (enrich_record recStock0).stockout_risk = true ∧
     (enrich_record recStock0).annualized_turnover = 0 ∧
     (enrich_record recStock0).fill_rate = 0) :=
  ⟨by decide, by decide, claim_C9 recStock0 (by decide) (by decide)⟩

theorem grade_count_partition :
    ∀ l : List Grade,
      l.count Grade.excellent + l.count Grade.good + l.count Grade.poor = l.length := by
  intro l
  induction l with
  | nil => rfl
  | cons a rest ih => cases a <;> simp [List.count_cons, ih] <;> omega

/-- C4 counterexample: with thresholds `excellent = 3 < good = 7`, an order
with `lead_time_days = 0` is not graded `Excellent` — `pd.cut` with bins
`[0, 3, 7, inf]` leaves `0` outside every (left-open) bin, so its grade is
null — and on a frame holding exactly that order the three reported
proportions sum to `0`, not `1`, although the frame has one non-null lead
time. -/
theorem claim_C4_counterexample :
    leadTimeGrade 3 7 0 = none ∧
    ((compute_lead_time_stats 3 7 dfLt0).1).map
        (fun s => s.excellent_ratio + s.good_ratio + s.poor_ratio) = some 0 := by
  constructor
  · simp [leadTimeGrade]
    norm_num
  · simp [compute_lead_time_stats, dfLt0, leadTimeGrade]
    norm_num

/-- C4 (amended): with configured thresholds `0 < excellent < good`, the
`pd.cut` grading assigns `Excellent` exactly on `0 < lt ≤ excellent`, `Good`
exactly on `excellent < lt ≤ good`, `Poor` exactly on `lt > good`, and no
grade (null) exactly on `lt ≤ 0`; the buckets are therefore mutually
exclusive, and whenever at least one order is graded the reported
proportions (normalized over non-null grades) sum to 1. -/
theorem claim_C4_amended (excT goodT lt : ℚ) (df : OrdersDF) (s : LeadStats)
    (h0 : 0 < excT) (h1 : excT < goodT)
    (hcol : df.hasLeadTime = true)
    (hs : (compute_lead_time_stats excT goodT df).1 = some s)
    (hne : (df.rows.map (fun r => leadTimeGrade excT goodT r.leadTime)).filterMap id ≠ []) :
    (leadTimeGrade excT goodT lt = some Grade.excellent ↔ 0 < lt ∧ lt ≤ excT) ∧
    (leadTimeGrade excT goodT lt = some Grade.good ↔ excT < lt ∧ lt ≤ goodT) ∧
    (leadTimeGrade excT goodT lt = some Grade.poor ↔ goodT < lt) ∧
    (leadTimeGrade excT goodT lt = none ↔ lt ≤ 0) ∧
    s.excellent_ratio + s.good_ratio + s.poor_ratio = 1 := by
  refine ⟨?_, ?_, ?_, ?_, ?_⟩
  · unfold leadTimeGrade
    split_ifs with c1 c2 c3
    · exact iff_of_true rfl c1
    · exact iff_of_false (by simp) c1
    · exact iff_of_false (by simp) c1
    · exact iff_of_false (by simp) c1
  · unfold leadTimeGrade
    split_ifs with c1 c2 c3
    · exact iff_of_false (by simp) (fun h => (not_le.mpr h.1) c1.2)
    · exact iff_of_true rfl c2
    · exact iff_of_false (by simp) c2
    · exact iff_of_false (by simp) c2
  · unfold leadTimeGrade
    split_ifs with c1 c2 c3
    · exact iff_of_false (by simp)
        (fun h => absurd (lt_trans (lt_of_le_of_lt c1.2 h1) h) (lt_irrefl lt))
    · exact iff_of_false (by simp)
        (fun h => absurd (lt_of_le_of_lt c2.2 h) (lt_irrefl lt))
    · exact iff_of_true rfl c3
    · exact iff_of_false (by simp) c3
  · unfold leadTimeGrade
    split_ifs with c1 c2 c3
    · exact iff_of_false (by simp) (not_le.mpr c1.1)
    · exact iff_of_false (by simp) (not_le.mpr (lt_trans h0 c2.1))
    · exact iff_of_false (by simp) (not_le.mpr (lt_trans (lt_trans h0 h1) c3))
    · refine iff_of_true rfl ?_
      by_contra hpos
      push_neg at hpos
      rcases le_or_lt lt excT with ha | hb
      · exact c1 ⟨hpos, ha⟩
      · rcases le_or_lt lt goodT with hc | hd
        · exact c2 ⟨hb, hc⟩
        · exact c3 hd
  · simp only [compute_lead_time_stats, hcol, Bool.true_eq_false, if_false,
      if_pos (And.intro h0 h1)] at hs
    rw [Option.some.injEq] at hs
    subst hs
    set graded := (df.rows.map (fun r => leadTimeGrade excT goodT r.leadTime)).filterMap id
      with hg
    have hlen : graded.length ≠ 0 := by
      intro h
      exact hne (List.length_eq_zero.mp h)
    have hq : ((graded.length : ℕ) : ℚ) ≠ 0 := Nat.cast_ne_zero.mpr hlen
    show (graded.count Grade.excellent : ℚ) / (graded.length : ℚ)
        + (graded.count Grade.good : ℚ) / (graded.length : ℚ)
        + (graded.count Grade.poor : ℚ) / (graded.length : ℚ) = 1
    rw [div_add_div_same, div_add_div_same]
    rw [show (graded.count Grade.excellent : ℚ) + (graded.count Grade.good : ℚ)
        + (graded.count Grade.poor : ℚ)
        = ((graded.count Grade.excellent + graded.count Grade.good
            + graded.count Grade.poor : ℕ) : ℚ) by push_cast; ring]
    rw [grade_count_partition graded]
    exact div_self hq

/-- Witness for C4 (amended): thresholds `3 < 7`, lead time `2`, and the
three-order frame with lead times `2`, `5`, `9` (one order per bucket). -/
theorem claim_C4_amended_witness :
    0 < (3:ℚ) ∧ (3:ℚ) < 7 ∧ dfThree.hasLeadTime = true ∧
    (leadTimeGrade 3 7 2 = some Grade.excellent ↔ 0 < (2:ℚ) ∧ (2:ℚ) ≤ 3) ∧
    (∀ s : LeadStats, (compute_lead_time_stats 3 7 dfThree).1 = some s →
      s.excellent_ratio + s.good_ratio + s.poor_ratio = 1) := by
  refine ⟨by norm_num, by norm_num, by decide, ?_, ?_⟩
  · rcases hopt : (compute_lead_time_stats 3 7 dfThree).1 with _ | s0
    · exfalso
      norm_num [compute_lead_time_stats, dfThree] at hopt
      exact Option.noConfusion hopt
    · exact (claim_C4_amended 3 7 2 dfThree s0 (by norm_num) (by norm_num) (by decide)
        hopt (by decide)).1
  · intro s hs
    exact (claim_C4_amended 3 7 2 dfThree s (by norm_num) (by norm_num) (by decide) hs
      (by decide)).2.2.2.2

/-- C5 counterexample: the aggregation entry points are not side-effect-free
on the order frame: on a concrete frame (one order, no derived columns)
`compute_lead_time_stats` hands back a frame with a new `lead_time_grade`
column and `compute_cycle_time` one with new `Delivery Date` and
`Cycle Time (Days)` columns, so neither output frame equals the input. -/
theorem claim_C5_counterexample :
    (compute_lead_time_stats 3 7 dfLt0).2 ≠ dfLt0 ∧
    (compute_cycle_time (fun _ => 2) 3 7 dfLt0).2 ≠ dfLt0 := by
  constructor
  · intro h
    have hcol := congrArg OrdersDF.gradeCol h
    norm_num [compute_lead_time_stats, dfLt0, leadTimeGrade] at hcol
    exact Option.noConfusion hcol
  · intro h
    have hcol := congrArg OrdersDF.cycleCol h
    norm_num [compute_cycle_time, dfLt0] at hcol
    exact Option.noConfusion hcol

/-- C5 (amended): `compute_lead_time_stats` returns the input order frame
mutated exactly by the assignment of the `lead_time_grade` column, and
`compute_cycle_time` (when a ship date is present) returns it mutated exactly
by the assignment of the `Delivery Date` and `Cycle Time (Days)` columns; the
rows and all other columns are unchanged.  (The inventory- and return-side
computations are embedded as pure functions: they read their inputs only.) -/
theorem claim_C5_amended (excT goodT : ℚ) (delta : ℕ → ℤ) (df df2 : OrdersDF)
    (h0 : 0 < excT) (h1 : excT < goodT) (hcol : df.hasLeadTime = true)
    (hship : df2.hasShipDate = true) :
    (compute_lead_time_stats excT goodT df).2 = with_grade_col excT goodT df ∧
    (compute_cycle_time delta excT goodT df2).2 = with_cycle_cols delta df2 := by
  constructor
  · simp [compute_lead_time_stats, with_grade_col, hcol, if_pos (And.intro h0 h1)]
  · simp [compute_cycle_time, with_cycle_cols, hship]

/-- Witness for C5 (amended): thresholds `3 < 7`, constant delivery delta 2,
and the concrete three-order frame on both sides. -/
theorem claim_C5_amended_witness :
    0 < (3:ℚ) ∧ (3:ℚ) < 7 ∧ dfThree.hasLeadTime = true ∧ dfThree.hasShipDate = true ∧
    ((compute_lead_time_stats 3 7 dfThree).2 = with_grade_col 3 7 dfThree ∧
     (compute_cycle_time (fun _ => 2) 3 7 dfThree).2 = with_cycle_cols (fun _ => 2) dfThree) :=
  ⟨by norm_num, by norm_num, by decide, by decide,
    claim_C5_amended 3 7 (fun _ => 2) dfThree dfThree
      (by norm_num) (by norm_num) (by decide) (by decide)⟩

/-- C8: `compute_return_metrics` reports rate `|returns| / |orders|`, and in
every degenerate case it returns `0` instead of raising: an empty order set
gives rate `0` (the explicit `if order_total > 0 else 0` guard), and a `None`
or empty returns frame gives `return_total = 0` and `return_ratio = 0`. -/
theorem claim_C8 (dfo : OrdersDF) (rd rdE : ReturnsDF)
    (hne : rd.rows ≠ []) (hE : rdE.rows = []) :
    ((compute_return_metrics dfo (some rd)).return_ratio
        = if 0 < dfo.rows.length then (rd.rows.length : ℚ) / (dfo.rows.length : ℚ) else 0) ∧
    (dfo.rows = [] → (compute_return_metrics dfo (some rd)).return_ratio = 0) ∧
    ((compute_return_metrics dfo none).return_total = 0 ∧
     (compute_return_metrics dfo none).return_ratio = 0) ∧
    ((compute_return_metrics dfo (some rdE)).return_total = 0 ∧
     (compute_return_metrics dfo (some rdE)).return_ratio = 0) := by
  refine ⟨?_, ?_, ?_, ?_⟩
  · simp [compute_return_metrics, hne]
  · intro h
    simp [compute_return_metrics, hne, h]
  · simp [compute_return_metrics]
  · simp [compute_return_metrics, hE]

/-- Witness for C8: three orders, one return, and an empty returns frame. -/
theorem claim_C8_witness :
    retOne.rows ≠ [] ∧
    ((compute_return_metrics dfThree (some retOne)).return_ratio
        = if 0 < dfThree.rows.length
          then (retOne.rows.length : ℚ) / (dfThree.rows.length : ℚ) else 0) ∧
    (dfThree.rows = [] → (compute_return_metrics dfThree (some retOne)).return_ratio = 0) ∧
    ((compute_return_metrics dfThree none).return_total = 0 ∧
     (compute_return_metrics dfThree none).return_ratio = 0) ∧
    ((compute_return_metrics dfThree (some { rows := [], hasCategory := false })).return_total = 0 ∧
     (compute_return_metrics dfThree (some { rows := [], hasCategory := false })).return_ratio = 0) :=
  ⟨by decide,
    claim_C8 dfThree retOne { rows := [], hasCategory := false } (by decide) (by decide)⟩

/-- C10: the excellent/good fill-rate buckets of `compute_fill_rate_stats`
are cumulative (each is a `fill_rate ≥ threshold` count over the same
product groups), so whenever the excellent threshold is at least the good
threshold, `excellent_rate_ratio ≤ good_rate_ratio` on every (nonempty)
inventory input. -/
theorem claim_C10 (excT goodT poorT : ℚ) (df : List EnrichedRecord)
    (hT : goodT ≤ excT) (hne : df ≠ []) :
    (compute_fill_rate_stats excT goodT poorT df).excellent_rate_ratio
      ≤ (compute_fill_rate_stats excT goodT poorT df).good_rate_ratio := by
  simp only [compute_fill_rate_stats]
  apply div_le_div_of_nonneg_right
  · have hcount := List.countP_mono_left
      (l := (df.map (fun r => r.row.product_id)).dedup)
      (p := fun k => decide (excT ≤ group_mean_fill df k))
      (q := fun k => decide (goodT ≤ group_mean_fill df k))
      (fun k _ h => decide_eq_true (le_trans hT (of_decide_eq_true h)))
    exact_mod_cast hcount
  · exact Nat.cast_nonneg _

/-- Witness for C10: thresholds `0.9 ≥ 0.8` on the two-product frame with
per-product mean fill rates `1` and `1/2`. -/
theorem claim_C10_witness :
    (0.8:ℚ) ≤ 0.9 ∧ invTwo ≠ [] ∧
    (compute_fill_rate_stats 0.9 0.8 0.5 invTwo).excellent_rate_ratio
      ≤ (compute_fill_rate_stats 0.9 0.8 0.5 invTwo).good_rate_ratio :=
  ⟨by norm_num, by simp [invTwo],
    claim_C10 0.9 0.8 0.5 invTwo (by norm_num) (by simp [invTwo])⟩
